import Mathlib

/-!
Verification development for the Vision-Code repository.

The repository is a browser application with three source files: a service
wrapper (analyzeCode in services/geminiService.ts) that sends code to a
hosted model and parses the JSON response, an App component that owns the
playback state machine over the returned visualization frames, and a d3
based Visualizer component.

This file is a shallow embedding of those parts in Lean 4:
- the TypeScript interfaces of types.ts become Lean structures;
- the App component state becomes the AppState structure, with the
  playbackRef timeout handle modelled as an optional timer identifier
  (a setTimeout handle) plus a counter that supplies fresh identifiers;
- each React handler becomes a pure state-transition function, translated
  line by line from the source;
- the playback useEffect becomes runPlaybackEffect: React runs the
  previous effect cleanup (clearTimeout of the stored handle) and then the
  effect body whenever one of its dependencies (isPlaying,
  currentFrameIndex, analysis) changed;
- JavaScript numbers that hold frame indices are modelled as Int, since
  expressions like (length || 0) - 1 go below zero;
- the asynchronous service call is modelled by passing its outcome
  (rejection, or a response carrying optional text) as an explicit value.
-/

namespace VisionCode

/-- GraphNode from types.ts: id and label are required strings, the
category tag and the color are optional. -/
structure GraphNode where
  id : String
  label : String
  type : Option String
  color : Option String
deriving Repr, DecidableEq

/-- GraphEdge from types.ts: a directed relation between two node
identifier strings, with an optional label. -/
structure GraphEdge where
  source : String
  target : String
  label : Option String
deriving Repr, DecidableEq

/-- VisualizationFrame from types.ts. -/
structure VisualizationFrame where
  step : Int
  lineCode : String
  explanation : String
  nodes : List GraphNode
  edges : List GraphEdge
deriving Repr, DecidableEq

/-- AnalysisResult from types.ts: the frame list plus four summary
strings. -/
structure AnalysisResult where
  frames : List VisualizationFrame
  timeComplexity : String
  spaceComplexity : String
  conceptExplanation : String
  detectedStructure : String
deriving Repr, DecidableEq

/-- EditorMode from types.ts. -/
inductive EditorMode where
  | python
  | javascript
  | java
deriving Repr, DecidableEq

/-- The whitespace characters removed by the JavaScript String
prototype trim method (the ASCII ones that can occur here). -/
def jsWhitespace (c : Char) : Bool :=
  c = ' ' || c = '\t' || c = '\n' || c = '\r' || c = '\x0b' || c = '\x0c'

/-- JavaScript code.trim(): strip leading and trailing whitespace. -/
def jsTrim (s : String) : String :=
  String.mk (((s.toList.dropWhile jsWhitespace).reverse.dropWhile jsWhitespace).reverse)

/-- CODE_TEMPLATES from the App component (index.tsx). Literal braces of
the JavaScript and Java templates are written with hexadecimal escapes. -/
def CODE_TEMPLATES : EditorMode → String
  | .python =>
      "class Node:\n    def __init__(self, val):\n        self.val = val\n        self.next = None\n\n# Step 1: Create Head\nhead = Node(1)\n\n# Step 2: Create Second\nsecond = Node(2)\nhead.next = second\n\n# Step 3: Create Cycle\nthird = Node(3)\nsecond.next = third\nthird.next = head \n"
  | .javascript =>
      "class Node \x7b\n  constructor(val) \x7b\n    this.val = val;\n    this.next = null;\n  \x7d\n\x7d\n\n// Step 1: Create Head\nconst head = new Node(1);\n\n// Step 2: Create Second\nconst second = new Node(2);\nhead.next = second;\n\n// Step 3: Create Cycle\nconst third = new Node(3);\nsecond.next = third;\nthird.next = head;\n"
  | .java =>
      "public class Main \x7b\n    static class Node \x7b\n        int val;\n        Node next;\n        \n        Node(int val) \x7b\n            this.val = val;\n            this.next = null;\n        \x7d\n    \x7d\n\n    public static void main(String[] args) \x7b\n        // Step 1: Create Head\n        Node head = new Node(1);\n\n        // Step 2: Create Second\n        Node second = new Node(2);\n        head.next = second;\n\n        // Step 3: Create Cycle\n        Node third = new Node(3);\n        second.next = third;\n        third.next = head;\n    \x7d\n\x7d\n"

/-- The state held by the App component. The playbackRef timeout handle
is modelled as pendingTimer (the identifier of the pending advancement
timeout, if one is pending) together with nextTimerId, a counter that
hands out fresh setTimeout handles. The isDarkMode flag is omitted: it
feeds only CSS theming and no claim mentions it. -/
structure AppState where
  mode : EditorMode
  code : String
  analysis : Option AnalysisResult
  loading : Bool
  error : Option String
  currentFrameIndex : Int
  isPlaying : Bool
  pendingTimer : Option Nat
  nextTimerId : Nat
deriving Repr, DecidableEq

/-- The JavaScript expression (analysis?.frames.length || 0): zero when
analysis is null and zero when the frame list is empty (0 is falsy), the
length otherwise. -/
def jsFramesLen (a : Option AnalysisResult) : Int :=
  match a with
  | some r => (r.frames.length : Int)
  | none => 0

/-- handleNext from the App component: when an analysis is loaded and the
cursor is strictly below the last index, advance by one and stop
playback; otherwise do nothing. -/
def handleNext (s : AppState) : AppState :=
  match s.analysis with
  | some a =>
      if s.currentFrameIndex < (a.frames.length : Int) - 1 then
        { s with currentFrameIndex := s.currentFrameIndex + 1, isPlaying := false }
      else s
  | none => s

/-- handlePrev from the App component: when the cursor is strictly
positive, step back by one and stop playback; otherwise do nothing. -/
def handlePrev (s : AppState) : AppState :=
  if 0 < s.currentFrameIndex then
    { s with currentFrameIndex := s.currentFrameIndex - 1, isPlaying := false }
  else s

/-- handleSliderChange from the App component: store the parsed slider
value as the cursor and stop playback. The handler itself performs no
range check on the value. -/
def handleSliderChange (s : AppState) (v : Int) : AppState :=
  { s with currentFrameIndex := v, isPlaying := false }

/-- togglePlay from the App component: when the cursor is at or beyond
the last index (with null analysis treated as length zero), reset the
cursor to zero; then flip isPlaying (the negation reads the pre-call
value). -/
def togglePlay (s : AppState) : AppState :=
  if jsFramesLen s.analysis - 1 ≤ s.currentFrameIndex then
    { s with currentFrameIndex := 0, isPlaying := !s.isPlaying }
  else
    { s with isPlaying := !s.isPlaying }

/-- handleModeChange from the App component: switch the language mode,
replace the code with the template, and reset the analysis state. -/
def handleModeChange (s : AppState) (newMode : EditorMode) : AppState :=
  { s with
      mode := newMode
      code := CODE_TEMPLATES newMode
      analysis := none
      currentFrameIndex := 0
      isPlaying := false
      error := none }

/-- The outcome of the awaited analyzeCode call as seen by handleRun:
either the promise rejected, or it resolved with an analysis result. -/
inductive RunOutcome where
  | failure
  | success (r : AnalysisResult)
deriving Repr, DecidableEq

/-- The error message handleRun stores when the service call fails. -/
def runFailedMsg : String := "Analysis failed. Please try again or check your API key."

/-- handleRun from the App component. The guard returns immediately when
the trimmed code is empty. Otherwise the handler sets loading, clears
the error and the previous analysis, resets the cursor and playback,
awaits the service call, and either stores the new result (re-setting the
cursor to zero when the frame list is non-empty) or stores the error
message; loading is cleared in the finally block. -/
def handleRun (s : AppState) (o : RunOutcome) : AppState :=
  if jsTrim s.code = "" then s
  else
    let s1 := { s with
                  loading := true
                  error := none
                  analysis := none
                  currentFrameIndex := 0
                  isPlaying := false }
    match o with
    | .success r =>
        let s2 := { s1 with analysis := some r }
        let s3 := if 0 < r.frames.length then { s2 with currentFrameIndex := 0 } else s2
        { s3 with loading := false }
    | .failure =>
        { s1 with error := some runFailedMsg, loading := false }

/-- The JavaScript array read analysis.frames[currentFrameIndex]:
undefined (none) outside the index range. -/
def jsIndex {α : Type} (xs : List α) (i : Int) : Option α :=
  if 0 ≤ i ∧ i < (xs.length : Int) then xs.get? i.toNat else none

/-- The derived currentFrame value of the App component: the frame at the
cursor when an analysis with a non-empty frame list is loaded, null
otherwise (an out-of-range cursor reads undefined from the array). -/
def currentFrame (s : AppState) : Option VisualizationFrame :=
  match s.analysis with
  | some a => if 0 < a.frames.length then jsIndex a.frames s.currentFrameIndex else none
  | none => none

/-- The fixed delay of the playback advancement timeout, in
milliseconds. -/
def playbackDelayMs : Nat := 1500

/-- The dependency tuple of the playback useEffect: the effect re-runs
exactly when one of isPlaying, currentFrameIndex, analysis changed. -/
def effectDeps (s : AppState) : Bool × Int × Option AnalysisResult :=
  (s.isPlaying, s.currentFrameIndex, s.analysis)

/-- One run of the playback useEffect, cleanup included. React first runs
the cleanup of the previous run, which clears the stored timeout; the
body then either schedules a fresh advancement timeout (when playing with
the cursor strictly below the last index) or, when the cursor is at or
beyond the last index of the possibly-null analysis, stops playback. -/
def runPlaybackEffect (s : AppState) : AppState :=
  if s.isPlaying = true ∧ s.analysis.isSome = true ∧
      s.currentFrameIndex < jsFramesLen s.analysis - 1 then
    { s with pendingTimer := some s.nextTimerId, nextTimerId := s.nextTimerId + 1 }
  else if jsFramesLen s.analysis - 1 ≤ s.currentFrameIndex then
    { s with pendingTimer := none, isPlaying := false }
  else
    { s with pendingTimer := none }

/-- Firing of the pending advancement timeout: the scheduled callback
increments the cursor by one; the dependency change then re-runs the
effect. When no timeout is pending nothing happens. -/
def fireTimer (s : AppState) : AppState :=
  match s.pendingTimer with
  | some _ =>
      runPlaybackEffect
        { s with pendingTimer := none, currentFrameIndex := s.currentFrameIndex + 1 }
  | none => s

/-- The three cursor operations named by the sequencer specification:
stepForward, stepBackward, seek. -/
inductive SeqOp where
  | stepForward
  | stepBackward
  | seek (i : Int)
deriving Repr, DecidableEq

/-- Apply one sequencer operation through its App handler. -/
def applyOp (s : AppState) : SeqOp → AppState
  | .stepForward => handleNext s
  | .stepBackward => handlePrev s
  | .seek i => handleSliderChange s i

/-- Apply a sequence of sequencer operations in order. -/
def applyOps (s : AppState) : List SeqOp → AppState
  | [] => s
  | op :: rest => applyOps (applyOp s op) rest

/-- The cursor-mutating user operations, togglePlay included. -/
inductive MutOp where
  | next
  | prev
  | seek (i : Int)
  | toggle
deriving Repr, DecidableEq

/-- Apply one mutating operation through its App handler. -/
def applyMutOp (s : AppState) : MutOp → AppState
  | .next => handleNext s
  | .prev => handlePrev s
  | .seek i => handleSliderChange s i
  | .toggle => togglePlay s

/-- A mutating operation followed by the React effect pass: the playback
effect re-runs exactly when its dependency tuple changed. -/
def applyMutOpWithEffect (s : AppState) (op : MutOp) : AppState :=
  let s1 := applyMutOp s op
  if effectDeps s1 = effectDeps s then s1 else runPlaybackEffect s1

/-! The service wrapper analyzeCode (services/geminiService.ts). The body
awaits the model call, then computes JSON.parse(response.text || "\x7b\x7d")
and returns the parsed value through a bare type assertion, with no
validation against the response schema; any exception (a rejected call or
a JSON.parse throw) is caught and replaced by a single opaque error.
JSON values are modelled by the Json inductive and JSON.parse by a
recursive-descent fuelled parser; numbers are modelled as integers (the
schema only uses integer and string fields, and no claim depends on
fractional or exponent forms, which this parser rejects). -/

/-- A JSON value, with numbers restricted to integers. -/
inductive Json where
  | null
  | bool (b : Bool)
  | num (n : Int)
  | str (s : String)
  | arr (xs : List Json)
  | obj (fields : List (String × Json))

/-- JSON insignificant whitespace. -/
def jsonWs (c : Char) : Bool :=
  c = ' ' || c = '\n' || c = '\t' || c = '\r'

/-- Drop leading JSON whitespace. -/
def skipWs : List Char → List Char
  | [] => []
  | c :: cs => if jsonWs c then skipWs cs else c :: cs

/-- Value of a hexadecimal digit. -/
def hexVal (c : Char) : Option Nat :=
  if '0' ≤ c ∧ c ≤ '9' then some (c.toNat - '0'.toNat)
  else if 'a' ≤ c ∧ c ≤ 'f' then some (c.toNat - 'a'.toNat + 10)
  else if 'A' ≤ c ∧ c ≤ 'F' then some (c.toNat - 'A'.toNat + 10)
  else none

/-- One escape sequence after a backslash inside a JSON string literal. -/
def escStep : List Char → Option (Char × List Char)
  | [] => none
  | e :: cs =>
    if e = '"' then some ('"', cs)
    else if e = '\\' then some ('\\', cs)
    else if e = '/' then some ('/', cs)
    else if e = 'b' then some ('\x08', cs)
    else if e = 'f' then some ('\x0c', cs)
    else if e = 'n' then some ('\n', cs)
    else if e = 'r' then some ('\r', cs)
    else if e = 't' then some ('\t', cs)
    else if e = 'u' then
      match cs with
      | a :: b :: c :: d :: cs2 =>
        match hexVal a, hexVal b, hexVal c, hexVal d with
        | some x, some y, some z, some w =>
            some (Char.ofNat (((x * 16 + y) * 16 + z) * 16 + w), cs2)
        | _, _, _, _ => none
      | _ => none
    else none

/-- The body of a JSON string literal, after the opening quote; returns
the decoded characters and the input following the closing quote. -/
def parseStringBody : Nat → List Char → Option (List Char × List Char)
  | 0, _ => none
  | _ + 1, [] => none
  | fuel + 1, c :: cs =>
    if c = '"' then some ([], cs)
    else if c = '\\' then
      match escStep cs with
      | some (ch, rest) =>
        match parseStringBody fuel rest with
        | some (out, rest2) => some (ch :: out, rest2)
        | none => none
      | none => none
    else
      match parseStringBody fuel cs with
      | some (out, rest2) => some (c :: out, rest2)
      | none => none

/-- Split a leading run of decimal digits from the input. -/
def takeDigits : List Char → List Char × List Char
  | [] => ([], [])
  | c :: cs =>
    if '0' ≤ c ∧ c ≤ '9' then
      let (ds, rest) := takeDigits cs
      (c :: ds, rest)
    else ([], c :: cs)

/-- Decimal value of a digit run. -/
def digitsToNat : Nat → List Char → Nat
  | acc, [] => acc
  | acc, c :: cs => digitsToNat (acc * 10 + (c.toNat - '0'.toNat)) cs

mutual

/-- A JSON value at the head of the input (leading whitespace allowed). -/
def parseVal : Nat → List Char → Option (Json × List Char)
  | 0, _ => none
  | fuel + 1, cs =>
    match skipWs cs with
    | [] => none
    | c :: cs1 =>
      if c = '{' then
        match skipWs cs1 with
        | '}' :: cs2 => some (.obj [], cs2)
        | cs2 =>
          match parseMembers fuel cs2 with
          | some (fs, cs3) => some (.obj fs, cs3)
          | none => none
      else if c = '[' then
        match skipWs cs1 with
        | ']' :: cs2 => some (.arr [], cs2)
        | cs2 =>
          match parseElems fuel cs2 with
          | some (xs, cs3) => some (.arr xs, cs3)
          | none => none
      else if c = '"' then
        match parseStringBody (cs1.length + 1) cs1 with
        | some (out, cs2) => some (.str (String.mk out), cs2)
        | none => none
      else if c = 't' then
        match cs1 with
        | 'r' :: 'u' :: 'e' :: cs2 => some (.bool true, cs2)
        | _ => none
      else if c = 'f' then
        match cs1 with
        | 'a' :: 'l' :: 's' :: 'e' :: cs2 => some (.bool false, cs2)
        | _ => none
      else if c = 'n' then
        match cs1 with
        | 'u' :: 'l' :: 'l' :: cs2 => some (.null, cs2)
        | _ => none
      else if c = '-' then
        match takeDigits cs1 with
        | ([], _) => none
        | (ds, cs2) => some (.num (-(digitsToNat 0 ds : Int)), cs2)
      else if '0' ≤ c ∧ c ≤ '9' then
        match takeDigits (c :: cs1) with
        | (ds, cs2) => some (.num (digitsToNat 0 ds : Int), cs2)
      else none

/-- The members of a JSON object, up to and including the closing
brace. -/
def parseMembers : Nat → List Char → Option (List (String × Json) × List Char)
  | 0, _ => none
  | fuel + 1, cs =>
    match skipWs cs with
    | '"' :: cs1 =>
      match parseStringBody (cs1.length + 1) cs1 with
      | some (key, cs2) =>
        match skipWs cs2 with
        | ':' :: cs3 =>
          match parseVal fuel cs3 with
          | some (v, cs4) =>
            match skipWs cs4 with
            | ',' :: cs5 =>
              match parseMembers fuel cs5 with
              | some (fs, cs6) => some ((String.mk key, v) :: fs, cs6)
              | none => none
            | '}' :: cs5 => some ([(String.mk key, v)], cs5)
            | _ => none
          | none => none
        | _ => none
      | none => none
    | _ => none

/-- The elements of a JSON array, up to and including the closing
bracket. -/
def parseElems : Nat → List Char → Option (List Json × List Char)
  | 0, _ => none
  | fuel + 1, cs =>
    match parseVal fuel cs with
    | some (v, cs1) =>
      match skipWs cs1 with
      | ',' :: cs2 =>
        match parseElems fuel cs2 with
        | some (xs, cs3) => some (v :: xs, cs3)
        | none => none
      | ']' :: cs2 => some ([v], cs2)
      | _ => none
    | none => none

end

/-- JSON.parse as a total function into Option: the whole input must be
one JSON value surrounded by whitespace. The fuel is sufficient because
every recursive step consumes at least one input character. -/
def jsonParse (s : String) : Option Json :=
  match parseVal (s.length + 1) s.toList with
  | some (j, rest) => if skipWs rest = [] then some j else none
  | none => none

/-- Field lookup on a JSON object value. -/
def Json.getField (j : Json) (k : String) : Option Json :=
  match j with
  | .obj fs => fs.lookup k
  | _ => none

/-- Discriminator for JSON strings. -/
def Json.isStr : Json → Bool
  | .str _ => true
  | _ => false

/-- Discriminator for JSON integers. -/
def Json.isInt : Json → Bool
  | .num _ => true
  | _ => false

/-- Conformance of a node object to the node schema of ANALYSIS_SCHEMA:
id and label are required strings; type and color, when present, are
strings. -/
def conformsNode (j : Json) : Bool :=
  (j.getField "id").any Json.isStr && (j.getField "label").any Json.isStr &&
  (j.getField "type").all Json.isStr && (j.getField "color").all Json.isStr

/-- Conformance of an edge object to the edge schema of ANALYSIS_SCHEMA:
source and target are required strings; label, when present, is a
string. -/
def conformsEdge (j : Json) : Bool :=
  (j.getField "source").any Json.isStr && (j.getField "target").any Json.isStr &&
  (j.getField "label").all Json.isStr

/-- Conformance of a frame object to the frame schema of
ANALYSIS_SCHEMA: step, lineCode, explanation, nodes and edges are all
required, with the stated types. -/
def conformsFrame (j : Json) : Bool :=
  (j.getField "step").any Json.isInt &&
  (j.getField "lineCode").any Json.isStr &&
  (j.getField "explanation").any Json.isStr &&
  (match j.getField "nodes" with
   | some (.arr xs) => xs.all conformsNode
   | _ => false) &&
  (match j.getField "edges" with
   | some (.arr xs) => xs.all conformsEdge
   | _ => false)

/-- Conformance of a parsed response to ANALYSIS_SCHEMA (the schema of
section 3 of the specification): the frames array and the four summary
strings are required. -/
def conformsToAnalysisSchema (j : Json) : Bool :=
  (match j.getField "frames" with
   | some (.arr xs) => xs.all conformsFrame
   | _ => false) &&
  (j.getField "timeComplexity").any Json.isStr &&
  (j.getField "spaceComplexity").any Json.isStr &&
  (j.getField "conceptExplanation").any Json.isStr &&
  (j.getField "detectedStructure").any Json.isStr

/-- The outcome of the generateContent call inside analyzeCode: the
promise rejected, or a response arrived whose text field is possibly
undefined. -/
inductive ServiceOutcome where
  | callError
  | success (text : Option String)
deriving Repr, DecidableEq

/-- The message of the opaque error thrown by analyzeCode. -/
def analysisFailedMsg : String := "Failed to analyze code execution."

/-- The JavaScript expression response.text || "\x7b\x7d": the default
replaces both an undefined and an empty text (both falsy). -/
def responseTextOrDefault (t : Option String) : String :=
  match t with
  | none => "\x7b\x7d"
  | some s => if s = "" then "\x7b\x7d" else s

/-- analyzeCode from services/geminiService.ts, as a function of the
service outcome: a rejected call or a JSON.parse throw is caught and
replaced by the opaque error; a parsed value is returned as-is through
the bare type assertion, with no validation against the schema. -/
def analyzeCode (o : ServiceOutcome) : Except String Json :=
  match o with
  | .callError => .error analysisFailedMsg
  | .success t =>
    match jsonParse (responseTextOrDefault t) with
    | some j => .ok j
    | none => .error analysisFailedMsg

/-! The Visualizer component (components/Visualizer.tsx). Its render
effect computes links = propEdges.map(d => (\x7b...d\x7d)) and
nodes = propNodes.map(d => (\x7b...d\x7d)) — shallow copies with no
inspection of the identifiers — and hands the whole links list to the
force-link setup keyed by node id. No edge is filtered out anywhere in
the component. -/

/-- The link list the Visualizer hands to the force simulation: a shallow
copy of every input edge, in order. -/
def visualizerLinks (propEdges : List GraphEdge) : List GraphEdge :=
  propEdges.map (fun d => { source := d.source, target := d.target, label := d.label })

/-- The node list the Visualizer hands to the force simulation: a shallow
copy of every input node, in order. -/
def visualizerNodes (propNodes : List GraphNode) : List GraphNode :=
  propNodes.map (fun d => { id := d.id, label := d.label, type := d.type, color := d.color })

/-- Whether some node of the list carries the given identifier. -/
def hasNodeId (nodes : List GraphNode) (i : String) : Bool :=
  nodes.any (fun n => n.id = i)

/-- Edge selection as the specification words it (the renderer excludes
an edge referencing an absent node id): keep exactly the edges whose two
endpoints name present nodes. Stated for comparison with the links the
source component actually hands to the simulation. -/
def specRenderedEdges (nodes : List GraphNode) (edges : List GraphEdge) : List GraphEdge :=
  edges.filter (fun e => hasNodeId nodes e.source && hasNodeId nodes e.target)

/-! Concrete fixtures used by counterexamples and witnesses. -/

/-- A frame with the given step number and no graph content. -/
def exampleFrame (n : Int) : VisualizationFrame :=
  { step := n, lineCode := "", explanation := "", nodes := [], edges := [] }

/-- An analysis result with two frames. -/
def exampleResult2 : AnalysisResult :=
  { frames := [exampleFrame 0, exampleFrame 1]
    timeComplexity := "O(1)"
    spaceComplexity := "O(1)"
    conceptExplanation := ""
    detectedStructure := "" }

/-- An analysis result with three frames. -/
def exampleResult3 : AnalysisResult :=
  { frames := [exampleFrame 0, exampleFrame 1, exampleFrame 2]
    timeComplexity := "O(n)"
    spaceComplexity := "O(n)"
    conceptExplanation := ""
    detectedStructure := "" }

/-- An analysis result with one frame. -/
def exampleResult1 : AnalysisResult :=
  { frames := [exampleFrame 0]
    timeComplexity := "O(1)"
    spaceComplexity := "O(1)"
    conceptExplanation := ""
    detectedStructure := "" }

/-- An analysis result with an empty frame list. -/
def exampleResult0 : AnalysisResult :=
  { frames := []
    timeComplexity := "O(1)"
    spaceComplexity := "O(1)"
    conceptExplanation := ""
    detectedStructure := "" }

/-- A quiescent state with the two-frame analysis loaded and the cursor
at zero. -/
def exampleState : AppState :=
  { mode := .python
    code := "x = 1"
    analysis := some exampleResult2
    loading := false
    error := none
    currentFrameIndex := 0
    isPlaying := false
    pendingTimer := none
    nextTimerId := 0 }

/-- A playing state with the three-frame analysis, cursor at zero, and a
pending advancement timeout with handle 0. -/
def examplePlayingState : AppState :=
  { mode := .python
    code := "x = 1"
    analysis := some exampleResult3
    loading := false
    error := none
    currentFrameIndex := 0
    isPlaying := true
    pendingTimer := some 0
    nextTimerId := 1 }

/-- A playing mid-sequence state whose code is whitespace-only. -/
def exampleEmptyCodeState : AppState :=
  { mode := .javascript
    code := "  \n\t "
    analysis := some exampleResult2
    loading := false
    error := none
    currentFrameIndex := 1
    isPlaying := true
    pendingTimer := none
    nextTimerId := 4 }

/-- A quiescent state with no analysis loaded. -/
def exampleNoAnalysisState : AppState :=
  { mode := .python
    code := "x = 1"
    analysis := none
    loading := false
    error := none
    currentFrameIndex := 0
    isPlaying := false
    pendingTimer := none
    nextTimerId := 0 }

/-- A node carrying identifier n1. -/
def soloNode : GraphNode := { id := "n1", label := "1", type := none, color := none }

/-- An edge from n1 to the absent identifier n2. -/
def danglingEdge : GraphEdge := { source := "n1", target := "n2", label := none }

/-! Helper lemmas about the handlers and the playback effect. -/

/-- handleNext either leaves the state unchanged or advances the cursor
by one and stops playback. -/
theorem handleNext_cases (s : AppState) :
    handleNext s = s ∨
    handleNext s = { s with currentFrameIndex := s.currentFrameIndex + 1, isPlaying := false } := by
  unfold handleNext
  cases s.analysis with
  | none => exact Or.inl rfl
  | some a =>
    dsimp only
    split
    · exact Or.inr rfl
    · exact Or.inl rfl

/-- handlePrev either leaves the state unchanged or steps the cursor back
by one and stops playback. -/
theorem handlePrev_cases (s : AppState) :
    handlePrev s = s ∨
    handlePrev s = { s with currentFrameIndex := s.currentFrameIndex - 1, isPlaying := false } := by
  unfold handlePrev
  split
  · exact Or.inr rfl
  · exact Or.inl rfl

/-- togglePlay either only flips isPlaying or also resets the cursor. -/
theorem togglePlay_cases (s : AppState) :
    togglePlay s = { s with isPlaying := !s.isPlaying } ∨
    togglePlay s = { s with currentFrameIndex := 0, isPlaying := !s.isPlaying } := by
  unfold togglePlay
  split
  · exact Or.inr rfl
  · exact Or.inl rfl

/-- No cursor-mutating handler touches the analysis, the timer handle, or
the timer-handle counter. -/
theorem applyMutOp_fixedFields (s : AppState) (op : MutOp) :
    (applyMutOp s op).analysis = s.analysis ∧
    (applyMutOp s op).pendingTimer = s.pendingTimer ∧
    (applyMutOp s op).nextTimerId = s.nextTimerId := by
  cases op with
  | next =>
    rcases handleNext_cases s with h | h <;>
      exact ⟨by rw [show applyMutOp s .next = handleNext s from rfl, h],
             by rw [show applyMutOp s .next = handleNext s from rfl, h],
             by rw [show applyMutOp s .next = handleNext s from rfl, h]⟩
  | prev =>
    rcases handlePrev_cases s with h | h <;>
      exact ⟨by rw [show applyMutOp s .prev = handlePrev s from rfl, h],
             by rw [show applyMutOp s .prev = handlePrev s from rfl, h],
             by rw [show applyMutOp s .prev = handlePrev s from rfl, h]⟩
  | seek i => exact ⟨rfl, rfl, rfl⟩
  | toggle =>
    rcases togglePlay_cases s with h | h <;>
      exact ⟨by rw [show applyMutOp s .toggle = togglePlay s from rfl, h],
             by rw [show applyMutOp s .toggle = togglePlay s from rfl, h],
             by rw [show applyMutOp s .toggle = togglePlay s from rfl, h]⟩

/-- The playback effect when it schedules an advancement timeout. -/
theorem runPlaybackEffect_sched (s : AppState)
    (hc : s.isPlaying = true ∧ s.analysis.isSome = true ∧
      s.currentFrameIndex < jsFramesLen s.analysis - 1) :
    runPlaybackEffect s =
      { s with pendingTimer := some s.nextTimerId, nextTimerId := s.nextTimerId + 1 } := by
  unfold runPlaybackEffect
  rw [if_pos hc]

/-- The playback effect when it stops playback. -/
theorem runPlaybackEffect_stop (s : AppState)
    (hc : ¬(s.isPlaying = true ∧ s.analysis.isSome = true ∧
      s.currentFrameIndex < jsFramesLen s.analysis - 1))
    (hc2 : jsFramesLen s.analysis - 1 ≤ s.currentFrameIndex) :
    runPlaybackEffect s = { s with pendingTimer := none, isPlaying := false } := by
  unfold runPlaybackEffect
  rw [if_neg hc, if_pos hc2]

/-- The playback effect when neither branch applies. -/
theorem runPlaybackEffect_idle (s : AppState)
    (hc : ¬(s.isPlaying = true ∧ s.analysis.isSome = true ∧
      s.currentFrameIndex < jsFramesLen s.analysis - 1))
    (hc2 : ¬(jsFramesLen s.analysis - 1 ≤ s.currentFrameIndex)) :
    runPlaybackEffect s = { s with pendingTimer := none } := by
  unfold runPlaybackEffect
  rw [if_neg hc, if_neg hc2]

/-- The playback effect never moves the cursor. -/
theorem runPlaybackEffect_cursor (s : AppState) :
    (runPlaybackEffect s).currentFrameIndex = s.currentFrameIndex := by
  unfold runPlaybackEffect
  split
  · rfl
  · split
    · rfl
    · rfl

/-- After an effect run, the pending handle is either cleared or the
fresh one just drawn from the counter. -/
theorem runPlaybackEffect_pending_cases (s : AppState) :
    (runPlaybackEffect s).pendingTimer = none ∨
    (runPlaybackEffect s).pendingTimer = some s.nextTimerId := by
  unfold runPlaybackEffect
  split
  · exact Or.inr rfl
  · split
    · exact Or.inl rfl
    · exact Or.inl rfl

/-! Claim theorems. -/

/-- Claim C7: with an analysis loaded, stepForward (handleNext)
increments the cursor by exactly one and sets playing to false when the
cursor is strictly below the last index, and otherwise leaves the whole
state unchanged; symmetrically stepBackward (handlePrev) decrements and
stops playback when the cursor is positive and otherwise leaves the
state unchanged, so calling either at its boundary is a safe no-op. -/
theorem stepBoundsNoOp (s : AppState) (a : AnalysisResult) (h : s.analysis = some a) :
    (s.currentFrameIndex < (a.frames.length : Int) - 1 →
      handleNext s = { s with currentFrameIndex := s.currentFrameIndex + 1, isPlaying := false }) ∧
    ((a.frames.length : Int) - 1 ≤ s.currentFrameIndex → handleNext s = s) ∧
    (0 < s.currentFrameIndex →
      handlePrev s = { s with currentFrameIndex := s.currentFrameIndex - 1, isPlaying := false }) ∧
    (s.currentFrameIndex ≤ 0 → handlePrev s = s) := by
  refine ⟨?_, ?_, ?_, ?_⟩
  · intro hlt
    unfold handleNext
    rw [h]
    dsimp only
    rw [if_pos hlt]
  · intro hge
    unfold handleNext
    rw [h]
    dsimp only
    rw [if_neg (by omega)]
  · intro hpos
    unfold handlePrev
    rw [if_pos hpos]
  · intro hle
    unfold handlePrev
    rw [if_neg (by omega)]

/-- Claim C7 witness: on the two-frame example at cursor zero, stepForward
advances to one and stepBackward is a no-op. -/
theorem stepBoundsNoOpWitness :
    (handleNext exampleState).currentFrameIndex = 1 ∧
    (handleNext exampleState).isPlaying = false ∧
    handlePrev exampleState = exampleState := by
  have h1 := (stepBoundsNoOp exampleState exampleResult2 rfl).1 (by decide)
  have h2 := (stepBoundsNoOp exampleState exampleResult2 rfl).2.2.2 (by decide)
  rw [h1]
  exact ⟨by decide, rfl, h2⟩

/-- Claim C6: with a non-empty frame sequence loaded, togglePlay at the
last frame resets the cursor to zero and flips playing; strictly below
the last frame it flips playing and leaves the cursor unchanged. -/
theorem togglePlayRestartSemantics (s : AppState) (a : AnalysisResult)
    (h : s.analysis = some a) (_hne : a.frames ≠ []) :
    (s.currentFrameIndex = (a.frames.length : Int) - 1 →
      togglePlay s = { s with currentFrameIndex := 0, isPlaying := !s.isPlaying }) ∧
    (s.currentFrameIndex < (a.frames.length : Int) - 1 →
      togglePlay s = { s with isPlaying := !s.isPlaying }) := by
  have hl : jsFramesLen s.analysis = (a.frames.length : Int) := by
    rw [h]
    rfl
  constructor
  · intro he
    unfold togglePlay
    rw [hl]
    rw [if_pos (by omega)]
  · intro hlt
    unfold togglePlay
    rw [hl]
    rw [if_neg (by omega)]

/-- Claim C6 witness: on the two-frame example, togglePlay at cursor one
(the last frame) restarts at cursor zero with playing flipped on, and
togglePlay at cursor zero flips playing while the cursor stays zero. -/
theorem togglePlayRestartSemanticsWitness :
    togglePlay { exampleState with currentFrameIndex := 1 } =
      { exampleState with currentFrameIndex := 0, isPlaying := true } ∧
    togglePlay exampleState = { exampleState with isPlaying := true } := by
  have h1 := (togglePlayRestartSemantics { exampleState with currentFrameIndex := 1 }
      exampleResult2 rfl (by decide)).1 (by decide)
  have h2 := (togglePlayRestartSemantics exampleState
      exampleResult2 rfl (by decide)).2 (by decide)
  rw [h1, h2]
  exact ⟨rfl, rfl⟩

/-- Claim C10: invoking the run operation with code that trims to the
empty string is a complete no-op: the state (analysis, cursor, playing,
loading, error, everything) is returned unchanged, whatever the service
would have answered. -/
theorem emptyCodeRunNoOp (s : AppState) (o : RunOutcome) (h : jsTrim s.code = "") :
    handleRun s o = s := by
  unfold handleRun
  rw [if_pos h]

/-- Claim C10 witness: a playing mid-sequence state with whitespace-only
code is untouched by a run, even a failing one. -/
theorem emptyCodeRunNoOpWitness :
    handleRun exampleEmptyCodeState .failure = exampleEmptyCodeState :=
  emptyCodeRunNoOp exampleEmptyCodeState .failure (by decide)

/-- Claim C8: loading a new sequence, by a successful run or by a
language-mode switch, resets the cursor to zero and playing to false
whatever the prior state; a run that returns an empty frame list
succeeds (no error is stored) and yields no current frame. -/
theorem loadResetsCursorAndPlaying (s : AppState) (r : AnalysisResult) (m : EditorMode)
    (h : jsTrim s.code ≠ "") :
    (handleRun s (.success r)).analysis = some r ∧
    (handleRun s (.success r)).currentFrameIndex = 0 ∧
    (handleRun s (.success r)).isPlaying = false ∧
    (handleRun s (.success r)).error = none ∧
    (r.frames = [] → currentFrame (handleRun s (.success r)) = none) ∧
    (handleModeChange s m).analysis = none ∧
    (handleModeChange s m).currentFrameIndex = 0 ∧
    (handleModeChange s m).isPlaying = false := by
  have hrun : handleRun s (.success r) =
      { s with loading := false, error := none, analysis := some r,
               currentFrameIndex := 0, isPlaying := false } := by
    unfold handleRun
    rw [if_neg h]
    dsimp only
    split
    · rfl
    · rfl
  rw [hrun]
  refine ⟨rfl, rfl, rfl, rfl, ?_, rfl, rfl, rfl⟩
  intro hfe
  unfold currentFrame
  dsimp only
  rw [hfe]
  rfl

/-- Claim C8 witness: a successful run and a mode switch from the playing
example state reset the cursor and stop playback; loading the empty
result leaves no current frame. -/
theorem loadResetsCursorAndPlayingWitness :
    (handleRun examplePlayingState (.success exampleResult1)).currentFrameIndex = 0 ∧
    (handleRun examplePlayingState (.success exampleResult1)).isPlaying = false ∧
    (handleModeChange examplePlayingState .java).analysis = none ∧
    currentFrame (handleRun examplePlayingState (.success exampleResult0)) = none := by
  have h1 := loadResetsCursorAndPlaying examplePlayingState exampleResult1 .java (by decide)
  have h0 := loadResetsCursorAndPlaying examplePlayingState exampleResult0 .java (by decide)
  exact ⟨h1.2.1, h1.2.2.1, h1.2.2.2.2.2.1, h0.2.2.2.2.1 rfl⟩

/-- Claim C2 counterexample: from a state holding a two-frame analysis,
a failing run does not leave the previous frame sequence untouched: the
analysis is null afterwards, so the state holds neither the old result
nor a new one. -/
theorem runFailureDiscardsOldAnalysisCounterexample :
    exampleState.analysis = some exampleResult2 ∧
    (handleRun exampleState .failure).analysis = none ∧
    (handleRun exampleState .failure).error = some runFailedMsg := by
  decide

/-- Claim C2 (amended): when the service call fails, the run operation
surfaces a single error state, and the previously loaded frame sequence
is discarded rather than preserved: the resulting state holds no
analysis (it was cleared when the run started), the error message, a
cleared loading flag, cursor zero and playback off. -/
theorem runFailureClearsAnalysisAndSetsError (s : AppState) (h : jsTrim s.code ≠ "") :
    handleRun s .failure =
      { s with loading := false, error := some runFailedMsg, analysis := none,
               currentFrameIndex := 0, isPlaying := false } := by
  unfold handleRun
  rw [if_neg h]

/-- Claim C2 (amended) witness: the failing run applied to the playing
example state. -/
theorem runFailureClearsAnalysisAndSetsErrorWitness :
    handleRun examplePlayingState .failure =
      { examplePlayingState with
          loading := false, error := some runFailedMsg,
          analysis := none, currentFrameIndex := 0, isPlaying := false } :=
  runFailureClearsAnalysisAndSetsError examplePlayingState (by decide)

/-- Range preservation of the sequencer operations: with an analysis
loaded, a cursor inside the index range, and every seek value inside the
range, any sequence of stepForward, stepBackward and seek calls keeps the
analysis and keeps the cursor inside the range. -/
theorem applyOps_inRange (a : AnalysisResult) :
    ∀ (ops : List SeqOp) (s : AppState), s.analysis = some a →
      0 ≤ s.currentFrameIndex → s.currentFrameIndex ≤ (a.frames.length : Int) - 1 →
      (∀ i : Int, SeqOp.seek i ∈ ops → 0 ≤ i ∧ i ≤ (a.frames.length : Int) - 1) →
      (applyOps s ops).analysis = some a ∧
      0 ≤ (applyOps s ops).currentFrameIndex ∧
      (applyOps s ops).currentFrameIndex ≤ (a.frames.length : Int) - 1
  | [], _, ha, h0, h1, _ => ⟨ha, h0, h1⟩
  | op :: rest, s, ha, h0, h1, hops => by
    have hstep : (applyOp s op).analysis = some a ∧
        0 ≤ (applyOp s op).currentFrameIndex ∧
        (applyOp s op).currentFrameIndex ≤ (a.frames.length : Int) - 1 := by
      cases op with
      | stepForward =>
        show (handleNext s).analysis = some a ∧
          0 ≤ (handleNext s).currentFrameIndex ∧
          (handleNext s).currentFrameIndex ≤ (a.frames.length : Int) - 1
        unfold handleNext
        rw [ha]
        dsimp only
        split
        next hlt =>
          refine ⟨rfl, ?_, ?_⟩
          · show 0 ≤ s.currentFrameIndex + 1
            omega
          · show s.currentFrameIndex + 1 ≤ (a.frames.length : Int) - 1
            omega
        next hge => exact ⟨ha, h0, h1⟩
      | stepBackward =>
        show (handlePrev s).analysis = some a ∧
          0 ≤ (handlePrev s).currentFrameIndex ∧
          (handlePrev s).currentFrameIndex ≤ (a.frames.length : Int) - 1
        unfold handlePrev
        split
        next hpos =>
          refine ⟨ha, ?_, ?_⟩
          · show 0 ≤ s.currentFrameIndex - 1
            omega
          · show s.currentFrameIndex - 1 ≤ (a.frames.length : Int) - 1
            omega
        next hle => exact ⟨ha, h0, h1⟩
      | seek i =>
        have hi := hops i (List.mem_cons_self _ _)
        exact ⟨ha, hi.1, hi.2⟩
    exact applyOps_inRange a rest (applyOp s op) hstep.1 hstep.2.1 hstep.2.2
      (fun i hi => hops i (List.mem_cons_of_mem _ hi))

/-- Claim C1 counterexample: on a loaded two-frame sequence, the seek
operation (handleSliderChange) applied with index 5 leaves the cursor at
5, outside the range up to length minus one: out-of-range seek input is
stored as given, not clamped. -/
theorem seekDoesNotClampCounterexample :
    (applyOps exampleState [SeqOp.seek 5]).analysis = some exampleResult2 ∧
    (exampleResult2.frames.length : Int) = 2 ∧
    (applyOps exampleState [SeqOp.seek 5]).currentFrameIndex = 5 ∧
    ¬((applyOps exampleState [SeqOp.seek 5]).currentFrameIndex ≤ 2 - 1) := by
  decide

/-- Claim C1 (amended): for every frame sequence and every sequence of
stepForward, stepBackward and seek calls in which each seek index already
lies within the index range, the cursor stays within the range (and each
operation is a total function, so no call throws); seek itself stores its
argument as given, performing no clamping. -/
theorem cursorStaysInRangeForInRangeSeeks (s : AppState) (a : AnalysisResult)
    (ops : List SeqOp) (h : s.analysis = some a)
    (h0 : 0 ≤ s.currentFrameIndex)
    (h1 : s.currentFrameIndex ≤ (a.frames.length : Int) - 1)
    (hops : ∀ i : Int, SeqOp.seek i ∈ ops → 0 ≤ i ∧ i ≤ (a.frames.length : Int) - 1) :
    (0 ≤ (applyOps s ops).currentFrameIndex ∧
      (applyOps s ops).currentFrameIndex ≤ (a.frames.length : Int) - 1) ∧
    (∀ (s2 : AppState) (i : Int), (handleSliderChange s2 i).currentFrameIndex = i) := by
  have hmain := applyOps_inRange a ops s h h0 h1 hops
  exact ⟨⟨hmain.2.1, hmain.2.2⟩, fun _ _ => rfl⟩

/-- Claim C1 (amended) witness: a seek to index 1, a step back and a step
forward keep the cursor of the two-frame example inside the range. -/
theorem cursorStaysInRangeForInRangeSeeksWitness :
    0 ≤ (applyOps exampleState [SeqOp.seek 1, SeqOp.stepBackward, SeqOp.stepForward]).currentFrameIndex ∧
    (applyOps exampleState [SeqOp.seek 1, SeqOp.stepBackward, SeqOp.stepForward]).currentFrameIndex ≤
      (exampleResult2.frames.length : Int) - 1 :=
  (cursorStaysInRangeForInRangeSeeks exampleState exampleResult2
    [SeqOp.seek 1, SeqOp.stepBackward, SeqOp.stepForward] rfl (by decide) (by decide)
    (fun i hi => by
      simp only [List.mem_cons, List.not_mem_nil, or_false] at hi
      rcases hi with hi | hi | hi
      · cases hi
        decide
      · cases hi
      · cases hi)).1

/-- Claim C3 counterexample: with a single node n1 and one edge whose
target n2 names no node, the link list the Visualizer hands to the force
simulation still contains that edge, so the renderer does not exclude
it; the list differs from the edge selection the specification
describes. -/
theorem danglingEdgeNotExcludedCounterexample :
    danglingEdge ∈ visualizerLinks [danglingEdge] ∧
    hasNodeId [soloNode] danglingEdge.target = false ∧
    visualizerLinks [danglingEdge] ≠ specRenderedEdges [soloNode] [danglingEdge] := by
  decide

/-- Claim C3 (amended): the renderer performs no filtering of edges
referencing absent node identifiers: every input edge, a dangling one
included, is passed through to the force-link setup, while the edge
selection worded by the specification would drop it; tolerance of the
dangling edge is thus left to the third-party layout library rather than
established by this component. -/
theorem danglingEdgePassedThrough (nodes : List GraphNode) (edges : List GraphEdge)
    (e : GraphEdge) (he : e ∈ edges) (hm : hasNodeId nodes e.target = false) :
    e ∈ visualizerLinks edges ∧ e ∉ specRenderedEdges nodes edges := by
  constructor
  · unfold visualizerLinks
    exact List.mem_map.mpr ⟨e, he, rfl⟩
  · unfold specRenderedEdges
    intro hmem
    have hcond := (List.mem_filter.mp hmem).2
    rw [hm] at hcond
    simp at hcond

/-- Claim C3 (amended) witness: the dangling edge from n1 to n2 is in the
link list but not in the specification's selection. -/
theorem danglingEdgePassedThroughWitness :
    danglingEdge ∈ visualizerLinks [danglingEdge] ∧
    danglingEdge ∉ specRenderedEdges [soloNode] [danglingEdge] :=
  danglingEdgePassedThrough [soloNode] [danglingEdge] danglingEdge (by decide) (by decide)

/-- Claim C4 counterexample: a service response whose text is the JSON
source of the empty object parses successfully, so analyzeCode returns
it as the analysis value even though it does not conform to the schema
(the frame list is missing): the call does not raise the opaque error on
every schema-malformed response. -/
theorem malformedSchemaReturnedCounterexample :
    analyzeCode (.success (some "\x7b\x7d")) = .ok (Json.obj []) ∧
    conformsToAnalysisSchema (Json.obj []) = false :=
  ⟨rfl, rfl⟩

/-- Claim C4 (amended): analyzeCode raises the single opaque error
exactly when the service call itself fails or the (defaulted) response
text is not valid JSON; a response that parses as JSON is returned as-is
with no validation against the section 3 schema, so schema-malformed but
well-formed JSON is returned rather than rejected. -/
theorem analyzeCodeErrorsOnlyOnCallOrParseFailure :
    (analyzeCode .callError = .error analysisFailedMsg) ∧
    (∀ t : Option String, jsonParse (responseTextOrDefault t) = none →
      analyzeCode (.success t) = .error analysisFailedMsg) ∧
    (∀ (t : Option String) (j : Json), jsonParse (responseTextOrDefault t) = some j →
      analyzeCode (.success t) = .ok j) ∧
    (∀ (t : Option String) (e : String), analyzeCode (.success t) = .error e →
      e = analysisFailedMsg ∧ jsonParse (responseTextOrDefault t) = none) := by
  refine ⟨rfl, ?_, ?_, ?_⟩
  · intro t ht
    unfold analyzeCode
    dsimp only
    rw [ht]
  · intro t j ht
    unfold analyzeCode
    dsimp only
    rw [ht]
  · intro t e ht
    unfold analyzeCode at ht
    dsimp only at ht
    cases hp : jsonParse (responseTextOrDefault t) with
    | some j =>
      rw [hp] at ht
      cases ht
    | none =>
      rw [hp] at ht
      injection ht with ht2
      exact ⟨ht2.symm, rfl⟩

/-- Claim C4 (amended) witness: a response text that is not JSON makes
analyzeCode raise the opaque error. -/
theorem analyzeCodeErrorsOnlyOnCallOrParseFailureWitness :
    analyzeCode (.success (some "not json")) = .error analysisFailedMsg :=
  analyzeCodeErrorsOnlyOnCallOrParseFailure.2.1 (some "not json") rfl

/-- The playback effect's pending handle is set whenever the scheduling
condition holds. -/
theorem runPlaybackEffect_pending_isSome (s : AppState)
    (hc : s.isPlaying = true ∧ s.analysis.isSome = true ∧
      s.currentFrameIndex < jsFramesLen s.analysis - 1) :
    ((runPlaybackEffect s).pendingTimer).isSome = true := by
  rw [runPlaybackEffect_sched s hc]
  rfl

/-- Claim C5: while playing with the cursor strictly below the last
index, the effect schedules the advancement timeout (whose delay is the
fixed 1500 milliseconds) and its firing advances the cursor by exactly
one, re-arming when still below the last index; reaching the last index
while playing sets playing to false; and the single stored handle is the
only pending timer, every cursor-mutating operation that changes the
effect dependencies cancelling the previously pending one (the handle
pending afterwards is never the old one). -/
theorem playbackAdvanceAndCancel (s : AppState) (a : AnalysisResult) (t : Nat) :
    (s.isPlaying = true → s.analysis = some a →
      s.currentFrameIndex < (a.frames.length : Int) - 1 →
      playbackDelayMs = 1500 ∧
      (runPlaybackEffect s).pendingTimer = some s.nextTimerId ∧
      (fireTimer (runPlaybackEffect s)).currentFrameIndex = s.currentFrameIndex + 1 ∧
      (s.currentFrameIndex + 1 < (a.frames.length : Int) - 1 →
        ((fireTimer (runPlaybackEffect s)).pendingTimer).isSome = true)) ∧
    (s.isPlaying = true → s.analysis = some a →
      (a.frames.length : Int) - 1 ≤ s.currentFrameIndex →
      (runPlaybackEffect s).isPlaying = false) ∧
    (∀ op : MutOp, s.pendingTimer = some t → t < s.nextTimerId →
      effectDeps (applyMutOp s op) ≠ effectDeps s →
      (applyMutOpWithEffect s op).pendingTimer ≠ some t) := by
  refine ⟨?_, ?_, ?_⟩
  · intro hp ha hlt
    have hl : jsFramesLen s.analysis = (a.frames.length : Int) := by
      rw [ha]
      rfl
    have hc : s.isPlaying = true ∧ s.analysis.isSome = true ∧
        s.currentFrameIndex < jsFramesLen s.analysis - 1 := by
      refine ⟨hp, ?_, ?_⟩
      · rw [ha]
        rfl
      · rw [hl]
        exact hlt
    have hsched := runPlaybackEffect_sched s hc
    refine ⟨rfl, by rw [hsched], ?_, ?_⟩
    · rw [hsched]
      unfold fireTimer
      dsimp only
      rw [runPlaybackEffect_cursor]
    · intro hlt2
      rw [hsched]
      unfold fireTimer
      dsimp only
      apply runPlaybackEffect_pending_isSome
      refine ⟨hp, ?_, ?_⟩
      · show s.analysis.isSome = true
        rw [ha]
        rfl
      · show s.currentFrameIndex + 1 < jsFramesLen s.analysis - 1
        rw [hl]
        exact hlt2
  · intro _hp ha hge
    have hl : jsFramesLen s.analysis = (a.frames.length : Int) := by
      rw [ha]
      rfl
    rw [runPlaybackEffect_stop s
      (by rintro ⟨-, -, hlt⟩; rw [hl] at hlt; omega)
      (by rw [hl]; exact hge)]
  · intro op hpend hlt hdeps
    unfold applyMutOpWithEffect
    dsimp only
    rw [if_neg hdeps]
    have hfix := applyMutOp_fixedFields s op
    rcases runPlaybackEffect_pending_cases (applyMutOp s op) with h | h
    · rw [h]
      exact fun hc => Option.noConfusion hc
    · rw [h, hfix.2.2]
      intro hc
      injection hc with hc2
      omega

/-- Claim C5 witness: on the playing three-frame example at cursor zero
with pending handle 0, the effect schedules the fresh handle 1, its
firing advances the cursor to one and re-arms; at cursor two the effect
stops playback; and a seek cancels the previously pending handle 0. -/
theorem playbackAdvanceAndCancelWitness :
    playbackDelayMs = 1500 ∧
    (runPlaybackEffect examplePlayingState).pendingTimer = some 1 ∧
    (fireTimer (runPlaybackEffect examplePlayingState)).currentFrameIndex = 1 ∧
    (runPlaybackEffect { examplePlayingState with currentFrameIndex := 2 }).isPlaying = false ∧
    (applyMutOpWithEffect examplePlayingState (.seek 1)).pendingTimer ≠ some 0 := by
  have h1 := (playbackAdvanceAndCancel examplePlayingState exampleResult3 0).1
    rfl rfl (by decide)
  have h2 := (playbackAdvanceAndCancel { examplePlayingState with currentFrameIndex := 2 }
    exampleResult3 0).2.1 rfl rfl (by decide)
  have h3 := (playbackAdvanceAndCancel examplePlayingState exampleResult3 0).2.2
    (.seek 1) rfl (by decide) (by decide)
  exact ⟨h1.1, by rw [h1.2.1]; rfl, by rw [h1.2.2.1]; rfl, h2, h3⟩

/-- Claim C9: in every settled state reached by running the playback
effect from a state with a non-negative cursor, playing still true
implies an analysis is loaded, its frame sequence is non-empty, and the
cursor is strictly below the last index; and togglePlay from a state
with no analysis, an empty sequence or a single-frame sequence resets
the cursor to zero while the effect immediately turns playing off. -/
theorem settledPlayingInvariant (s : AppState) (h0 : 0 ≤ s.currentFrameIndex) :
    ((runPlaybackEffect s).isPlaying = true →
      ∃ a, s.analysis = some a ∧ a.frames ≠ [] ∧
        (runPlaybackEffect s).currentFrameIndex < (a.frames.length : Int) - 1) ∧
    ((s.analysis = none ∨ ∃ a, s.analysis = some a ∧ a.frames.length ≤ 1) →
      (runPlaybackEffect (togglePlay s)).currentFrameIndex = 0 ∧
      (runPlaybackEffect (togglePlay s)).isPlaying = false) := by
  constructor
  · intro hp
    by_cases hc : s.isPlaying = true ∧ s.analysis.isSome = true ∧
        s.currentFrameIndex < jsFramesLen s.analysis - 1
    · obtain ⟨hpl, hsome, hlt⟩ := hc
      obtain ⟨a, ha⟩ := Option.isSome_iff_exists.mp hsome
      have hl : jsFramesLen s.analysis = (a.frames.length : Int) := by
        rw [ha]
        rfl
      rw [hl] at hlt
      refine ⟨a, ha, ?_, ?_⟩
      · exact List.length_pos.mp (by omega)
      · rw [runPlaybackEffect_cursor]
        exact hlt
    · by_cases hc2 : jsFramesLen s.analysis - 1 ≤ s.currentFrameIndex
      · rw [runPlaybackEffect_stop s hc hc2] at hp
        cases hp
      · exfalso
        cases hA : s.analysis with
        | none =>
          rw [hA] at hc2
          simp only [jsFramesLen] at hc2
          omega
        | some a =>
          rw [runPlaybackEffect_idle s hc hc2] at hp
          exact hc ⟨hp, by rw [hA]; rfl, by omega⟩
  · intro hsmall
    have hl0 : jsFramesLen s.analysis ≤ 1 := by
      rcases hsmall with hnone | ⟨a, ha, hle⟩
      · rw [hnone]
        decide
      · rw [ha]
        simp only [jsFramesLen]
        omega
    have htog : togglePlay s =
        { s with currentFrameIndex := 0, isPlaying := !s.isPlaying } := by
      unfold togglePlay
      rw [if_pos (by omega)]
    have key : ∀ s1 : AppState, s1.analysis = s.analysis → s1.currentFrameIndex = 0 →
        (runPlaybackEffect s1).currentFrameIndex = 0 ∧
        (runPlaybackEffect s1).isPlaying = false := by
      intro s1 hA hC
      have hc2' : jsFramesLen s1.analysis - 1 ≤ s1.currentFrameIndex := by
        rw [hA, hC]
        omega
      have hc1' : ¬(s1.isPlaying = true ∧ s1.analysis.isSome = true ∧
          s1.currentFrameIndex < jsFramesLen s1.analysis - 1) := by
        rintro ⟨-, -, hlt⟩
        rw [hA, hC] at hlt
        omega
      rw [runPlaybackEffect_stop s1 hc1' hc2']
      exact ⟨hC, rfl⟩
    rw [htog]
    exact key _ rfl rfl

/-- Claim C9 witness: togglePlay with no analysis loaded leaves the
settled state at cursor zero with playing false. -/
theorem settledPlayingInvariantWitness :
    (runPlaybackEffect (togglePlay exampleNoAnalysisState)).currentFrameIndex = 0 ∧
    (runPlaybackEffect (togglePlay exampleNoAnalysisState)).isPlaying = false :=
  (settledPlayingInvariant exampleNoAnalysisState (by decide)).2 (Or.inl rfl)

end VisionCode
